import Mathlib

/-!
Shallow embedding of `src/sbrio_driver_udp.cpp` (class `SbrioDriver_UDP`), a UDP
driver for an sbRIO motion controller.  The embedding covers the wire-format
codec (`_bool_to_char`, `_char_to_bool`, `_binary_to_double`, the frame built in
`_loop`), the receive completion handler `_handle_receive`, the state seeding in
`connect`, and the per-tick miss accounting of `_loop`.

Conventions: bytes are `Nat` taken modulo 256 where the code stores into a
`char`; C++ `double` values are modelled exactly as `ℚ` (every finite IEEE-754
binary32 value is an integer multiple of `2 ^ (-149)`, and the
`float → double` widening performed by `_binary_to_double` is exact); the
blocking receive is modelled by passing the completion error code and the
contents of the persistent receive buffer `_rcv_buf` into the tick function.
-/

namespace SbrioDriverUDP

/-- `NUMBER_OF_JOINTS` from the driver header (commented reminder at the top of
the source file: `#define NUMBER_OF_JOINTS 5`); the spec fixes `N = 5`. -/
def NUMBER_OF_JOINTS : Nat := 5

/-- `FLOAT_LENGTH`: bytes per serialized value (`#define FLOAT_LENGTH 4`). -/
def FLOAT_LENGTH : Nat := 4

/-- Exact rational value of the finite IEEE-754 binary32 number with bit
pattern `w` (sign bit 31, biased exponent bits 30..23, mantissa bits 22..0).
Every finite binary32 value equals an integer multiple of `2 ^ (-149)`:
subnormals are `±m / 2 ^ 149` and normals are
`±(2 ^ 23 + m) * 2 ^ (e - 1) / 2 ^ 149`.  Patterns with `e = 255` (infinities,
NaNs) denote no rational; no claim below touches them. -/
def float32Val (w : Nat) : ℚ :=
  let e : Nat := w / 2 ^ 23 % 2 ^ 8
  let m : Nat := w % 2 ^ 23
  let n : Int := if e = 0 then (m : Int) else ((2 ^ 23 + m : Nat) : Int) * ((2 ^ (e - 1) : Nat) : Int)
  let sn : Int := if w / 2 ^ 31 % 2 = 1 then -n else n
  (sn : ℚ) / ((2 ^ 149 : Nat) : ℚ)

/-- The 32-bit pattern `_binary_to_double` assembles from `buf[index..index+3]`:
the source reverses the four bytes into `tmp_buf` before the `memcpy` into a
`float`, so on the little-endian host `buf[index]` becomes the most significant
byte — a big-endian read. -/
def binary_to_word (buf : List Nat) (index : Nat) : Nat :=
  buf.getD index 0 % 256 * 2 ^ 24 + buf.getD (index + 1) 0 % 256 * 2 ^ 16 +
    buf.getD (index + 2) 0 % 256 * 2 ^ 8 + buf.getD (index + 3) 0 % 256

/-- `_binary_to_double`: big-endian binary32 read at `index`, widened exactly to
double (`static_cast<double>(f)`). -/
def binary_to_double (buf : List Nat) (index : Nat) : ℚ :=
  float32Val (binary_to_word buf index)

/-- `_bool_to_char`: packs a vector of booleans into one byte.  The source loop
is `for(i=0;i<b_vect.size();i++) c = (c << 1) + b_vect[b_vect.size()-i];`.  Its
first pass (`i = 0`) reads `b_vect[b_vect.size()]`, one element past the end of
the vector — undefined behavior in C++; the unspecified bit that read yields is
the parameter `oob`.  All later accesses (`i ≥ 1`) are in bounds, so the
`List.getD` default is only ever used for that first out-of-bounds read.
`% 256` models storage into the 8-bit `char c`. -/
def bool_to_char (oob : Bool) (b_vect : List Bool) : Nat :=
  (List.range b_vect.length).foldl
    (fun c i => (2 * c + if b_vect.getD (b_vect.length - i) oob then 1 else 0) % 256) 0

/-- The assignments `b_vect[i] = c % 2; c = c >> 1;` of `_char_to_bool`,
producing the list of `b_vect.length` booleans (bit `i` of `c`, least
significant first). -/
def char_to_bool_loop (c : Nat) : Nat → List Bool
  | 0 => []
  | k + 1 => (c % 2 == 1) :: char_to_bool_loop (c / 2) k

/-- `_char_to_bool(c, b_vect)` as the list it computes.  NOTE: in the source the
vector parameter is declared `std::vector<bool> b_vect` — taken BY VALUE — so
the assignments mutate a local copy and the caller's vector is never changed;
`handle_receive` below reflects that at its call site. -/
def char_to_bool (c : Nat) (b_vect : List Bool) : List Bool :=
  char_to_bool_loop c b_vect.length

/-- The outgoing frame `send_buf` built in `_loop` when both dirty flags are
set: a `boost::array<char, NUMBER_OF_JOINTS*FLOAT_LENGTH+1>`.  For joint `i`
the cast `(float)joint_setpoints[i]` rounds the double setpoint to binary32 and
`setpoint_bits i` is the resulting 32-bit pattern; the byte reversal
`convertedFloat[j] = floatToConvert[FLOAT_LENGTH-1-j]` on the little-endian
host writes the most significant byte first (big-endian) at offset `4*i`.  The
final byte is `_bool_to_char(motors_enabled)`. -/
def send_buf (oob : Bool) (setpoint_bits : Nat → Nat) (motors_enabled : List Bool) : List Nat :=
  (List.range (NUMBER_OF_JOINTS * FLOAT_LENGTH + 1)).map fun k =>
    if k = NUMBER_OF_JOINTS * FLOAT_LENGTH then bool_to_char oob motors_enabled
    else setpoint_bits (k / FLOAT_LENGTH) / 2 ^ (8 * (FLOAT_LENGTH - 1 - k % FLOAT_LENGTH)) % 256

/-- Completion status delivered to `_handle_receive` (a
`boost::system::error_code`): `success` is the zero code, `messageSize` is
`boost::asio::error::message_size` (datagram longer than the buffer),
`operationAborted` is the code a receive cancelled by the expired deadline
completes with, `other` is any other failure. -/
inductive ErrCode where
  | success
  | messageSize
  | operationAborted
  | other
  deriving DecidableEq

/-- Truthiness of the stored `_ec` in the test `if (_ec)` of `_loop`: every
nonzero error code converts to `true`. -/
def ErrCode.isErr : ErrCode → Bool
  | .success => false
  | _ => true

/-- The driver state touched by the embedded operations: the flags and counter
of `SbrioDriver_UDP` plus the shared joint-state vectors guarded by
`state_mutex`.  (`joint_names`, `motor_names` and `joint_setpoints_mask` are
also seeded by `connect` but no claim mentions them.) -/
structure DriverState where
  connected : Bool
  initialized : Bool
  no_packet_received : Nat
  joint_setpoints : List ℚ
  motors_enabled : List Bool
  motors_active : List Bool
  joint_positions : List ℚ
  joint_velocities : List ℚ
  joint_efforts : List ℚ
  new_setpoints : Bool
  new_motor_enables : Bool
  deriving DecidableEq

/-- State established by the constructor: `_connected(false)`,
`_initialized(false)`, `_no_packet_received(0)`, `new_setpoints(false)`,
`new_motor_enables(false)`; all vectors start empty. -/
def initState : DriverState :=
  { connected := false
    initialized := false
    no_packet_received := 0
    joint_setpoints := []
    motors_enabled := []
    motors_active := []
    joint_positions := []
    joint_velocities := []
    joint_efforts := []
    new_setpoints := false
    new_motor_enables := false }

/-- `connect`: `_socket.connect(_robot_ep, error)`; `socketError` records
whether `error` was set.  Only on success are the loop thread started and
`_connected` set.  Everything after the `if` runs unconditionally: the seeding
loop `for(i=0;i<NUMBER_OF_JOINTS+1;i++)` pushes `NUMBER_OF_JOINTS + 1 = 6`
zeros into each of `joint_positions`, `joint_velocities`, `joint_efforts`
(and reads `names_list[5]` past the end of the 5-element name vector), while
`joint_setpoints`, `motors_enabled`, `motors_active` get exactly 5 pushes;
then both dirty flags and `_initialized` are set.  The source function returns
`void`, so no error is ever reported to the caller. -/
def connect (socketError : Bool) (s : DriverState) : DriverState :=
  { s with
    connected := if socketError then s.connected else true
    joint_positions := s.joint_positions ++ List.replicate (NUMBER_OF_JOINTS + 1) (0 : ℚ)
    joint_velocities := s.joint_velocities ++ List.replicate (NUMBER_OF_JOINTS + 1) (0 : ℚ)
    joint_efforts := s.joint_efforts ++ List.replicate (NUMBER_OF_JOINTS + 1) (0 : ℚ)
    joint_setpoints := s.joint_setpoints ++ List.replicate NUMBER_OF_JOINTS (0 : ℚ)
    motors_enabled := s.motors_enabled ++ List.replicate NUMBER_OF_JOINTS true
    motors_active := s.motors_active ++ List.replicate NUMBER_OF_JOINTS true
    new_setpoints := true
    new_motor_enables := true
    initialized := true }

/-- The assignment loop `for(i=0;i<n;i++) dst[i] = f(i);` on a vector: indices
past the end of `dst` are left to `List.set`'s no-op (the source only ever runs
it on vectors of length ≥ `n`). -/
def write_block (f : Nat → ℚ) (n : Nat) (dst : List ℚ) : List ℚ :=
  (List.range n).foldl (fun l i => l.set i (f i)) dst

/-- `_handle_receive(error, bytes_transferred)`: stores `error` into `_ec`
(reflected by `tick` below) and, when `error` is zero or `message_size`,
decodes the persistent receive buffer under the state lock.  The second
parameter is unnamed and unused in the source — no length check is performed —
and it is kept here to make that explicit.  Positions are read at
`i*FLOAT_LENGTH`, velocities at `i*FLOAT_LENGTH + vector_length`, efforts at
`i*FLOAT_LENGTH + vector_length*2` with
`vector_length = FLOAT_LENGTH * NUMBER_OF_JOINTS` (inlined below).  The final
statement `_char_to_bool(_rcv_buf[vector_length*3], motors_active)` passes
`motors_active` by value, so its result is computed into a copy that is thrown
away and `motors_active` is left untouched. -/
def handle_receive (error : ErrCode) (bytesTransferred : Nat) (rcv_buf : List Nat)
    (s : DriverState) : DriverState :=
  if error = ErrCode.success ∨ error = ErrCode.messageSize then
    { s with
      joint_positions :=
        write_block (fun i => binary_to_double rcv_buf (i * FLOAT_LENGTH))
          NUMBER_OF_JOINTS s.joint_positions
      joint_velocities :=
        write_block
          (fun i => binary_to_double rcv_buf (i * FLOAT_LENGTH + FLOAT_LENGTH * NUMBER_OF_JOINTS))
          NUMBER_OF_JOINTS s.joint_velocities
      joint_efforts :=
        write_block
          (fun i =>
            binary_to_double rcv_buf (i * FLOAT_LENGTH + FLOAT_LENGTH * NUMBER_OF_JOINTS * 2))
          NUMBER_OF_JOINTS s.joint_efforts }
  else s

/-- One iteration of the `while (true)` body of `_loop`, given the outcome of
the bounded receive: `ec` is the completion code the handler delivered into
`_ec` and `rcv_buf` the contents of `_rcv_buf` when the handler ran.  The send
phase copies dirty state into `send_buf` and clears both dirty flags; the
receive phase runs `_handle_receive`; the error phase increments
`_no_packet_received` when `_ec` is nonzero and resets it to 0 otherwise. -/
def tick (ec : ErrCode) (bytesTransferred : Nat) (rcv_buf : List Nat)
    (s : DriverState) : DriverState :=
  let s1 := { s with new_setpoints := false, new_motor_enables := false }
  let s2 := handle_receive ec bytesTransferred rcv_buf s1
  if ec.isErr then { s2 with no_packet_received := s2.no_packet_received + 1 }
  else { s2 with no_packet_received := 0 }

/-- Modelled from the spec's wording of `decode_incoming`: position `i` is the
big-endian float32 at offset `4*i`, widened to float64. -/
def decode_positions_spec (n : Nat) (frame : List Nat) : List ℚ :=
  (List.range n).map fun i => float32Val (binary_to_word frame (4 * i))

/-- Modelled from the spec's wording of `decode_incoming`: velocity `i` is the
big-endian float32 at offset `4*n + 4*i`, widened to float64. -/
def decode_velocities_spec (n : Nat) (frame : List Nat) : List ℚ :=
  (List.range n).map fun i => float32Val (binary_to_word frame (4 * n + 4 * i))

/-- Modelled from the spec's wording of `decode_incoming`: effort `i` is the
big-endian float32 at offset `8*n + 4*i`, widened to float64. -/
def decode_efforts_spec (n : Nat) (frame : List Nat) : List ℚ :=
  (List.range n).map fun i => float32Val (binary_to_word frame (8 * n + 4 * i))

/-- Driver state right after a successful `connect` on a fresh instance. -/
def postConnect : DriverState := connect false initState

/-- Scenario B frame: 61 bytes whose five position floats are all `1.5`
(big-endian binary32 `0x3FC00000` = bytes `63, 192, 0, 0`), followed by zero
velocities, zero efforts and a zero bitmask byte. -/
def scenarioBFrame : List Nat :=
  [63, 192, 0, 0, 63, 192, 0, 0, 63, 192, 0, 0, 63, 192, 0, 0, 63, 192, 0, 0] ++
    List.replicate 41 0

/-- Contents of the persistent `_rcv_buf` after a 5-byte datagram carrying
bytes `63, 192, 0, 0, 0` was received into it; the remaining 56 bytes are the
buffer's stale contents (zeros here). -/
def shortDatagramBuf : List Nat := [63, 192, 0, 0, 0] ++ List.replicate 56 0

/-- A 61-byte all-zero incoming frame; its bitmask byte at offset 60 is 0
(all active flags clear). -/
def zeroFrame : List Nat := List.replicate 61 0

/-- C1: the claim says the encoded frame has `4*N+1 = 21` bytes (true) and that
its final byte is a bitmask with bit `i` (least significant first) equal to
`enabled[i]` (false on the code).  At `enabled = [true, false, false, false,
false]` the claim demands an odd final byte (bit 0 = `enabled[0]` = 1), but
`_bool_to_char`'s loop reads `b_vect[size-i]`, so bit `i` of the produced byte
is `enabled[i+1]` and the top processed bit comes from the out-of-bounds read
`b_vect[5]`: the final byte is `16` or `0` depending on that unspecified bit —
even in either case. -/
theorem c1_bitmask_code_bug : ∀ oob : Bool,
    (send_buf oob (fun _ => 0) [true, false, false, false, false]).length = 21 ∧
    (send_buf oob (fun _ => 0) [true, false, false, false, false]).getD 20 0 =
      (if oob then 16 else 0) ∧
    (send_buf oob (fun _ => 0) [true, false, false, false, false]).getD 20 0 % 2 = 0 := by
  decide

/-- C2: for every incoming frame of at least `12*N+1 = 61` bytes, the receive
handler writes into joints `0..4` exactly the spec-shaped decode: position `i`
is the big-endian float32 at offset `4*i`, velocity `i` at `4*N + 4*i`, effort
`i` at `8*N + 4*i`, each widened exactly to float64; and Scenario B holds: the
61-byte frame whose five position floats are all `1.5` decodes to positions
`[1.5, 1.5, 1.5, 1.5, 1.5]`.  The state's arrays are quantified in the
six-element shape `connect` actually produces. -/
theorem c2_decode_offsets (frame : List Nat) (hlen : 61 ≤ frame.length) (bt : Nat)
    (s : DriverState)
    (p0 p1 p2 p3 p4 p5 v0 v1 v2 v3 v4 v5 e0 e1 e2 e3 e4 e5 : ℚ)
    (hp : s.joint_positions = [p0, p1, p2, p3, p4, p5])
    (hv : s.joint_velocities = [v0, v1, v2, v3, v4, v5])
    (he : s.joint_efforts = [e0, e1, e2, e3, e4, e5]) :
    ((handle_receive ErrCode.success bt frame s).joint_positions.take 5 =
        decode_positions_spec 5 frame ∧
      (handle_receive ErrCode.success bt frame s).joint_velocities.take 5 =
        decode_velocities_spec 5 frame ∧
      (handle_receive ErrCode.success bt frame s).joint_efforts.take 5 =
        decode_efforts_spec 5 frame) ∧
    decode_positions_spec 5 scenarioBFrame = [3 / 2, 3 / 2, 3 / 2, 3 / 2, 3 / 2] := by
  obtain ⟨c, ini, npr, sp, me, ma, jp, jv, je, ns, nm⟩ := s
  dsimp only at hp hv he
  subst hp
  subst hv
  subst he
  refine ⟨⟨rfl, rfl, rfl⟩, ?_⟩
  have hr : List.range 5 = [0, 1, 2, 3, 4] := rfl
  have h0 : binary_to_word scenarioBFrame 0 = 1069547520 := by decide
  have h4 : binary_to_word scenarioBFrame 4 = 1069547520 := by decide
  have h8 : binary_to_word scenarioBFrame 8 = 1069547520 := by decide
  have h12 : binary_to_word scenarioBFrame 12 = 1069547520 := by decide
  have h16 : binary_to_word scenarioBFrame 16 = 1069547520 := by decide
  have hval : float32Val 1069547520 = 3 / 2 := by norm_num [float32Val]
  norm_num [decode_positions_spec, hr, h0, h4, h8, h12, h16, hval]

/-- Witness for `c2_decode_offsets` at the concrete Scenario B input: the
61-byte frame applied to the freshly connected state. -/
theorem c2_decode_offsets_witness :
    ((handle_receive ErrCode.success 61 scenarioBFrame postConnect).joint_positions.take 5 =
        decode_positions_spec 5 scenarioBFrame ∧
      (handle_receive ErrCode.success 61 scenarioBFrame postConnect).joint_velocities.take 5 =
        decode_velocities_spec 5 scenarioBFrame ∧
      (handle_receive ErrCode.success 61 scenarioBFrame postConnect).joint_efforts.take 5 =
        decode_efforts_spec 5 scenarioBFrame) ∧
    decode_positions_spec 5 scenarioBFrame = [3 / 2, 3 / 2, 3 / 2, 3 / 2, 3 / 2] :=
  c2_decode_offsets scenarioBFrame (by decide) 61 postConnect
    0 0 0 0 0 0 0 0 0 0 0 0 0 0 0 0 0 0 rfl rfl rfl

/-- C3: the claim says `unpack_bits (pack_bits flags) = flags` for every
`N ≥ 1`; on the code it fails.  At `flags = [true, false, false, false,
false]`, `_bool_to_char` yields bit `i` = `flags[i+1]` (top bit from the
out-of-bounds read), so `_char_to_bool` recovers `[false, false, false, false,
oob] ≠ flags` whatever the unspecified bit was. -/
theorem c3_roundtrip_code_bug : ∀ oob : Bool,
    char_to_bool (bool_to_char oob [true, false, false, false, false])
        [true, false, false, false, false] ≠
      [true, false, false, false, false] := by
  decide

/-- C4: the claim says the decode step overwrites the shared `motors_active`
array with the bits of the frame's bitmask byte; on the code it fails.
`_char_to_bool` receives `motors_active` by value, so the handler never changes
it: for every error code, buffer and state the field is untouched, and in
particular an all-zero frame (bitmask byte 0, which unpacks to all-false)
leaves the post-connect all-true array in place. -/
theorem c4_active_code_bug :
    (∀ ec bt buf s, (handle_receive ec bt buf s).motors_active = s.motors_active) ∧
    (handle_receive ErrCode.success 61 zeroFrame postConnect).motors_active =
      [true, true, true, true, true] ∧
    char_to_bool (zeroFrame.getD 60 0) postConnect.motors_active =
      [false, false, false, false, false] := by
  refine ⟨fun ec bt buf s => ?_, rfl, rfl⟩
  unfold handle_receive
  split <;> rfl

/-- C5: the claim says a buffer shorter than `12*N+1` bytes fails to decode
with `ShortFrame`, leaving state and miss counter unchanged; on the code it
fails.  `_handle_receive` ignores its `bytes_transferred` argument entirely
(first conjunct, by reflexivity, for all lengths), so after a 5-byte datagram
that completed without error the tick decodes the 61 persistent buffer bytes
anyway: the miss counter is reset from 7 to 0 and `joint_positions[0]` is
overwritten (with `1.5` here) instead of being left at its previous value 0. -/
theorem c5_no_length_check_code_bug :
    (∀ ec bt1 bt2 buf s, handle_receive ec bt1 buf s = handle_receive ec bt2 buf s) ∧
    (tick ErrCode.success 5 shortDatagramBuf
        { postConnect with no_packet_received := 7 }).no_packet_received = 0 ∧
    (tick ErrCode.success 5 shortDatagramBuf
          { postConnect with no_packet_received := 7 }).joint_positions.getD 0 0 ≠
      postConnect.joint_positions.getD 0 0 := by
  refine ⟨fun ec bt1 bt2 buf s => rfl, rfl, ?_⟩
  have h1 : (tick ErrCode.success 5 shortDatagramBuf
      { postConnect with no_packet_received := 7 }).joint_positions.getD 0 0 =
      float32Val 1069547520 := rfl
  have h2 : postConnect.joint_positions.getD 0 0 = 0 := rfl
  rw [h1, h2]
  norm_num [float32Val]

/-- C7 counterexample: a tick whose receive completed with
`boost::asio::error::message_size` both applies the decoded frame to shared
state (`joint_positions[0]` changes from 0 to 1.5) and increments the miss
counter, so the claim "there is no tick in which data is applied to shared
state yet the counter is incremented" is false on the code. -/
theorem c7_counterexample :
    (tick ErrCode.messageSize 61 scenarioBFrame postConnect).joint_positions.getD 0 0 ≠
      postConnect.joint_positions.getD 0 0 ∧
    (tick ErrCode.messageSize 61 scenarioBFrame postConnect).no_packet_received =
      postConnect.no_packet_received + 1 := by
  constructor
  · have h1 : (tick ErrCode.messageSize 61 scenarioBFrame postConnect).joint_positions.getD 0 0 =
        float32Val 1069547520 := rfl
    have h2 : postConnect.joint_positions.getD 0 0 = 0 := rfl
    rw [h1, h2]
    norm_num [float32Val]
  · rfl

/-- C7 amended: in every tick the miss counter is reset to 0 exactly when the
receive completed with the zero error code, and is incremented by 1 on every
other completion — including `message_size`, on which the frame is nonetheless
decoded and applied.  Data is applied to the positions array exactly on the
zero and `message_size` codes. -/
theorem c7_amended (ec : ErrCode) (bt : Nat) (buf : List Nat) (s : DriverState) :
    (tick ec bt buf s).no_packet_received =
      (if ec = ErrCode.success then 0 else s.no_packet_received + 1) ∧
    (tick ec bt buf s).joint_positions =
      (if ec = ErrCode.success ∨ ec = ErrCode.messageSize then
        write_block (fun i => binary_to_double buf (i * FLOAT_LENGTH)) NUMBER_OF_JOINTS
          s.joint_positions
      else s.joint_positions) := by
  cases ec <;> exact ⟨rfl, rfl⟩

/-- C8: no tick ever changes the `connected` flag (first conjunct); after a
successful `connect` it is true, and after 25 consecutive timed-out ticks
(deadline expiry cancels the receive, completing it with
`operation_aborted`) the miss counter has reached 25 while `connected` is
still true. -/
theorem c8_connected_persists :
    (∀ ec bt buf s, (tick ec bt buf s).connected = s.connected) ∧
    postConnect.connected = true ∧
    ((tick ErrCode.operationAborted 0 [])^[25] postConnect).connected = true ∧
    ((tick ErrCode.operationAborted 0 [])^[25] postConnect).no_packet_received = 25 := by
  refine ⟨fun ec bt buf s => ?_, rfl, rfl, rfl⟩
  cases ec <;> rfl

/-- C9: the claim says every per-joint array holds exactly `N = 5` elements
after `connect`; on the code it fails.  The seeding loop runs
`NUMBER_OF_JOINTS + 1 = 6` times, so `joint_positions`, `joint_velocities` and
`joint_efforts` each get 6 elements (while `joint_setpoints`,
`motors_enabled`, `motors_active` do get 5). -/
theorem c9_lengths_code_bug :
    (connect false initState).joint_positions.length = NUMBER_OF_JOINTS + 1 ∧
    (connect false initState).joint_velocities.length = NUMBER_OF_JOINTS + 1 ∧
    (connect false initState).joint_efforts.length = NUMBER_OF_JOINTS + 1 ∧
    (connect false initState).joint_setpoints.length = NUMBER_OF_JOINTS ∧
    (connect false initState).motors_enabled.length = NUMBER_OF_JOINTS ∧
    (connect false initState).motors_active.length = NUMBER_OF_JOINTS ∧
    NUMBER_OF_JOINTS = 5 :=
  ⟨rfl, rfl, rfl, rfl, rfl, rfl, rfl⟩

/-- C10: when the socket association fails, `connect` still seeds the shared
joint state (zero setpoints, all-true enables and actives), sets both dirty
flags and sets `initialized`, while `connected` stays false — and the source's
`connect` returns `void`, so the caller is told nothing.  Hence
`initialized = true` does not imply `connected = true`. -/
theorem c10_connect_error_still_seeds :
    (connect true initState).initialized = true ∧
    (connect true initState).connected = false ∧
    (connect true initState).new_setpoints = true ∧
    (connect true initState).new_motor_enables = true ∧
    (connect true initState).joint_setpoints = List.replicate NUMBER_OF_JOINTS 0 ∧
    (connect true initState).motors_enabled = List.replicate NUMBER_OF_JOINTS true ∧
    (connect true initState).motors_active = List.replicate NUMBER_OF_JOINTS true :=
  ⟨rfl, rfl, rfl, rfl, rfl, rfl, rfl⟩

end SbrioDriverUDP
